import Mathlib

/-!
Verification of the AvaBuddie / VirtualDoc telemedicine application.

This file gives a shallow embedding of the application's service layer and of
the stored procedures of its database migrations, and proves the testable
properties stated in the specification against that embedding.

Conventions of the embedding:
- Database uuids and timestamps are modelled as natural numbers.
- JavaScript strings are modelled as Lean strings; the JS string operations
  startsWith / includes / trim-emptiness are re-implemented over the
  character list of the string so that they evaluate in the kernel.
- Asynchronous vendor calls (HTTP) are modelled by passing the outcome of the
  call as an explicit argument; the functions record in their result whether a
  network request would have been attempted and with which payload.
- Fallible operations return Except; a caught exception is an Except.error
  that the enclosing function turns into its fallback value.
-/

namespace AvaBuddie

/-- Boolean test that a character list `p` leads (starts) a character list
`l`, mirroring the JS `String.prototype.startsWith` semantics. -/
def charsLead (p l : List Char) : Bool :=
  match p with
  | [] => true
  | c :: cs =>
    match l with
    | [] => false
    | d :: ds => c == d && charsLead cs ds

/-- Model of the JS expression `s.startsWith(p)`. -/
def strStartsWith (s p : String) : Bool := charsLead p.data s.data

/-- Helper for `strIncludes`: containment of a contiguous character run. -/
def listIncludes (l pat : List Char) : Bool :=
  match l with
  | [] => pat.isEmpty
  | _ :: t => charsLead pat l || listIncludes t pat

/-- Model of the JS expression `s.includes(pat)`. -/
def strIncludes (s pat : String) : Bool := listIncludes s.data pat.data

/-- JS whitespace test for the characters that can occur in the inputs we
consider (space, tab, newline, carriage return). -/
def isJsWhitespace (c : Char) : Bool := c == ' ' || c == '\t' || c == '\n' || c == '\r'

/-- Model of the JS test `s.trim().length === 0` (also true for the falsy
empty string, covering the source's `!s ||` disjunct). -/
def jsTrimEmpty (s : String) : Bool := s.data.all isJsWhitespace

/-! ### GeminiService (src/src/services/geminiService.ts)

The vendor SDK call `model.generateContent` is modelled by a
`VendorOutcome`: either the text the vendor returned, or the message of the
error it threw (network, auth, quota, content safety, ...). -/

/-- Outcome of one call to the external text-generation vendor. -/
inductive VendorOutcome where
  | ok (text : String)
  | err (message : String)
deriving Repr, DecidableEq

/-- One prior turn of the conversation, as the service receives it. -/
structure GeminiMessage where
  role : String
  parts : String
deriving Repr, DecidableEq

/-- System persona prompt built in `generateResponse`. -/
def geminiSystemPrompt (hasImage isVoiceMessage : Bool) : String :=
  "You are Dr. Ava, a professional medical assistant. You provide helpful, accurate, and empathetic medical guidance while always emphasizing the importance of professional medical care when needed. \n\nKey guidelines:\n- Be professional yet warm and empathetic\n- Provide helpful medical information but always recommend consulting healthcare professionals for serious concerns\n- If symptoms seem severe, suggest emergency care or doctor consultation\n- Be concise but thorough in your responses\n- Use simple, understandable language\n- Show concern for the patient\x27s wellbeing\n\n"
    ++ (if hasImage then "The user has shared an image. Acknowledge that you can see it and provide relevant guidance based on visual symptoms." else "")
    ++ "\n"
    ++ (if isVoiceMessage then "The user sent a voice message. Acknowledge this and respond appropriately to their spoken concerns." else "")

/-- Serialization of one history entry inside the prompt. -/
def historyLine (msg : GeminiMessage) : String :=
  (if msg.role == "model" then "Dr. Ava" else "Patient") ++ ": " ++ msg.parts ++ "\n"

/-- Prompt assembly of `generateResponse`: persona, then the serialized
prior turns when any exist, then the current user message. -/
def buildConversationContext (userMessage : String) (conversationHistory : List GeminiMessage)
    (hasImage isVoiceMessage : Bool) : String :=
  let base := geminiSystemPrompt hasImage isVoiceMessage ++ "\n\n"
  let ctx :=
    if conversationHistory.length > 0 then
      (conversationHistory.foldl (fun acc msg => acc ++ historyLine msg)
        (base ++ "Previous conversation:\n")) ++ "\n"
    else base
  ctx ++ "Patient: " ++ userMessage ++ "\nDr. Ava:"

/-- Hard-coded fallback returned by `generateResponse` when the vendor call
throws. -/
def geminiFallbackMessage : String :=
  "I apologize, but I\x27m experiencing technical difficulties right now. For immediate medical concerns, please contact your healthcare provider or emergency services. I\x27ll be back to assist you shortly."

/-- Model of `GeminiService.generateResponse`: builds the prompt, performs a
single vendor call, and on any vendor error returns the fixed fallback
instead of rethrowing (the source's try/catch). -/
def generateResponse (userMessage : String) (conversationHistory : List GeminiMessage)
    (hasImage isVoiceMessage : Bool) (vendor : String → VendorOutcome) : String :=
  match vendor (buildConversationContext userMessage conversationHistory hasImage isVoiceMessage) with
  | .ok text => text
  | .err _ => geminiFallbackMessage

/-- MIME-type heuristic of `analyzeImage`: signature tests on the base64
payload, defaulting to JPEG. -/
def detectMimeType (imageBase64 : String) : String :=
  if strStartsWith imageBase64 "/9j/" then "image/jpeg"
  else if strStartsWith imageBase64 "iVBORw0KGgo" then "image/png"
  else if strStartsWith imageBase64 "R0lGOD" then "image/gif"
  else if strStartsWith imageBase64 "UklGR" then "image/webp"
  else "image/jpeg"

/-- Fallback of `analyzeImage` for API-key configuration errors. -/
def apiKeyFallbackMessage : String :=
  "I can see the image you\x27ve shared, but I\x27m having trouble accessing the image analysis service due to an API configuration issue. Please try again later or describe your symptoms in text."

/-- Fallback of `analyzeImage` for quota or rate-limit errors. -/
def quotaFallbackMessage : String :=
  "I can see the image you\x27ve shared, but the image analysis service is currently at capacity. Please try again in a few minutes or describe your symptoms in text."

/-- Fallback of `analyzeImage` for invalid image data. -/
def invalidImageFormatMessage : String :=
  "I\x27m having trouble processing this image format. Please try uploading a different image (JPEG, PNG, or GIF) or describe your symptoms in text."

/-- Fallback of `analyzeImage` for content-safety rejections. -/
def safetyFallbackMessage : String :=
  "I can see the image you\x27ve shared, but I\x27m not able to analyze this particular type of content. Please describe your symptoms in text, and I\x27ll be happy to help."

/-- Generic fallback of `analyzeImage` for any other vendor failure. -/
def genericImageFallbackMessage : String :=
  "I can see the image you\x27ve shared, but I\x27m having trouble analyzing it right now. This could be due to image format issues or temporary service problems. Please try uploading the image again or describe your symptoms in text, and I\x27ll be happy to help. For any concerning visual symptoms, please consult with a healthcare professional who can properly examine the area."

/-- Error-message classification of the catch block of `analyzeImage`. -/
def classifyImageError (m : String) : String :=
  if strIncludes m "API key" then apiKeyFallbackMessage
  else if strIncludes m "quota" || strIncludes m "limit" then quotaFallbackMessage
  else if strIncludes m "Invalid image" then invalidImageFormatMessage
  else if strIncludes m "safety" then safetyFallbackMessage
  else genericImageFallbackMessage

/-- The five hard-coded fallback strings `analyzeImage` can substitute for a
vendor failure. -/
def imageFallbackMessages : List String :=
  [apiKeyFallbackMessage, quotaFallbackMessage, invalidImageFormatMessage,
   safetyFallbackMessage, genericImageFallbackMessage]

/-- System prompt of `analyzeImage`. -/
def imageSystemPrompt : String :=
  "You are Dr. Ava, a medical AI assistant analyzing a medical image. \n\nIMPORTANT GUIDELINES:\n- Provide helpful observations about what you can see in the image\n- Always emphasize that this is preliminary analysis and professional medical evaluation is needed\n- If you see concerning symptoms, recommend immediate medical attention\n- Be specific about what you observe but avoid definitive diagnoses\n- Use clear, understandable language\n- Show empathy and concern for the patient\x27s wellbeing\n\nSAFETY PROTOCOLS:\n- Never provide definitive diagnoses based solely on images\n- Always recommend professional medical evaluation\n- For concerning findings, suggest urgent medical care\n- Be honest about limitations of image-based analysis"

/-- Full text prompt `analyzeImage` sends alongside the inline image. -/
def imageAnalysisPrompt (userMessage : String) : String :=
  imageSystemPrompt ++ "\n\nPatient\x27s question: " ++ userMessage

/-- Result of `analyzeImage`: the string returned to the caller, plus a trace
of the vendor request that was issued, if any — the prompt and declared
MIME type — so that theorems can speak about network behavior. -/
structure ImageAnalysis where
  result : String
  vendorCall : Option (String × String)
deriving Repr, DecidableEq

/-- Model of `GeminiService.analyzeImage`. An empty or whitespace-only
payload throws `Invalid image data provided` before any vendor interaction;
the catch block classifies the error message into one of the fixed fallback
strings. Otherwise the MIME type is guessed and a single vendor call is
made; a vendor error is classified the same way. -/
def analyzeImage (imageBase64 userMessage : String) (vendor : VendorOutcome) : ImageAnalysis :=
  if jsTrimEmpty imageBase64 then
    { result := classifyImageError "Invalid image data provided", vendorCall := none }
  else
    let mimeType := detectMimeType imageBase64
    let prompt := imageAnalysisPrompt userMessage
    match vendor with
    | .ok text => { result := text, vendorCall := some (prompt, mimeType) }
    | .err m => { result := classifyImageError m, vendorCall := some (prompt, mimeType) }

/-! ### TavusService (src/src/services/tavusService.ts)

Each method of the service first evaluates its mock/fallback guard; only
when the guard fails does it perform a fetch. The fetch outcome is an
explicit argument, and the result records whether a network request was
attempted. -/

/-- Vendor-side video conversation record. -/
structure TavusConversation where
  conversation_id : String
  status : String
  conversation_url : Option String
deriving Repr, DecidableEq

/-- Guard `!this.apiKey || this.apiKey === placeholder` of every method of
the service; `none` models an unset environment variable. -/
def tavusKeyMissing (apiKey : Option String) : Bool :=
  match apiKey with
  | none => true
  | some k => k == "" || k == "your_tavus_api_key_here"

/-- Model of `TavusService.createConversation`. With no usable key a mock
conversation is returned without any vendor interaction; otherwise the
vendor allocation is attempted (`attempt` is its outcome) and any failure
is replaced by a locally built fallback conversation. -/
def createConversation (apiKey : Option String) (origin : String) (now : Nat)
    (attempt : Except String TavusConversation) : TavusConversation :=
  if tavusKeyMissing apiKey then
    { conversation_id := "mock_" ++ toString now, status := "active",
      conversation_url := some (origin ++ "/mock-tavus-conversation") }
  else
    match attempt with
    | .ok result => result
    | .error _ =>
      { conversation_id := "fallback_" ++ toString now, status := "active",
        conversation_url := some (origin ++ "/mock-tavus-conversation") }

/-- Trace of one fire-and-forget Tavus method call. -/
structure TavusCall where
  networkAttempted : Bool
deriving Repr, DecidableEq

/-- Short-circuit guard shared by `endConversation`, `sendMessage`,
`updateConversationContext` and `getConversationStatus`. -/
def tavusShortCircuit (apiKey : Option String) (conversationId : String) : Bool :=
  tavusKeyMissing apiKey || strStartsWith conversationId "mock_"
    || strStartsWith conversationId "fallback_"

/-- Model of `TavusService.endConversation`: a no-op on mock/fallback ids;
otherwise one DELETE request whose error is swallowed. -/
def endConversation (apiKey : Option String) (conversationId : String)
    (net : Except String Unit) : TavusCall :=
  if tavusShortCircuit apiKey conversationId then { networkAttempted := false }
  else
    match net with
    | .ok _ => { networkAttempted := true }
    | .error _ => { networkAttempted := true }

/-- Model of `TavusService.sendMessage`: a no-op on mock/fallback ids;
otherwise one POST request whose error is swallowed. -/
def sendMessage (apiKey : Option String) (conversationId : String) (message : String)
    (net : Except String Unit) : TavusCall :=
  if tavusShortCircuit apiKey conversationId then { networkAttempted := false }
  else
    match net, message with
    | .ok _, _ => { networkAttempted := true }
    | .error _, _ => { networkAttempted := true }

/-- Model of `TavusService.updateConversationContext`: a no-op on
mock/fallback ids; otherwise one PUT request whose error is swallowed. -/
def updateConversationContext (apiKey : Option String) (conversationId : String) (context : String)
    (net : Except String Unit) : TavusCall :=
  if tavusShortCircuit apiKey conversationId then { networkAttempted := false }
  else
    match net, context with
    | .ok _, _ => { networkAttempted := true }
    | .error _, _ => { networkAttempted := true }

/-- Model of `TavusService.getConversationStatus`: returns `active` without
a request on mock/fallback ids; otherwise one GET whose error degrades the
result to the string `error`. -/
def getConversationStatus (apiKey : Option String) (conversationId : String)
    (net : Except String String) : TavusCall × String :=
  if tavusShortCircuit apiKey conversationId then ({ networkAttempted := false }, "active")
  else
    match net with
    | .ok s => ({ networkAttempted := true }, s)
    | .error _ => ({ networkAttempted := true }, "error")

/-! ### Data model of the backend tables
(src/supabase/migrations/20250619201918_soft_peak.sql) -/

/-- Minimal JSON value universe for `jsonb` notification payloads. -/
inductive JVal where
  | str (s : String)
  | num (n : Nat)
  | null
deriving Repr, DecidableEq

/-- SQL NULL-aware lift of an optional string into a JSON value. -/
def joptStr : Option String → JVal
  | some s => .str s
  | none => .null

/-- Row of `profiles` (the attributes the verified operations read). -/
structure Profile where
  id : Nat
  user_id : Nat
  email : String
  full_name : String
  role : String
deriving Repr, DecidableEq

/-- Row of `doctors` with its joined profile, as the client receives it. -/
structure Doctor where
  id : Nat
  profile_id : Nat
  license_number : String
  specialties : List String
  years_experience : Nat
  clinic_name : Option String
  verified : Bool
  profile : Option Profile
deriving Repr, DecidableEq

/-- Row of `patient_doctor_requests`. -/
structure RequestRow where
  id : Nat
  patient_id : Nat
  doctor_id : Nat
  message : Option String
  status : String
  requested_at : Nat
  responded_at : Option Nat
deriving Repr, DecidableEq

/-- Row of `patient_doctor_relationships`. -/
structure RelationshipRow where
  id : Nat
  patient_id : Nat
  doctor_id : Nat
deriving Repr, DecidableEq

/-- Row of `notifications`; `ntype` and `ndata` stand for the SQL columns
`type` and `data` (both are reserved-ish words in Lean). -/
structure NotificationRow where
  id : Nat
  user_id : Nat
  ntype : String
  title : String
  message : String
  ndata : List (String × JVal)
  read : Bool
deriving Repr, DecidableEq

/-- Row of `chat_sessions`; one embedded message of its `messages` jsonb
log. `mtype` stands for the TS field `type`. -/
structure ChatMessage where
  id : String
  mtype : String
  content : String
  timestamp : String
  audioUrl : Option String
  imageUrl : Option String
  isVoiceMessage : Option Bool
deriving Repr, DecidableEq

/-- Row of `chat_sessions`. -/
structure ChatSession where
  id : Nat
  patient_id : Nat
  session_name : String
  messages : List ChatMessage
  last_message_at : Nat
  created_at : Nat
  updated_at : Nat
deriving Repr, DecidableEq

/-- Database state touched by the request/relationship workflow. `nextId`
models uuid generation for inserted rows. -/
structure DB where
  profiles : List Profile
  requests : List RequestRow
  relationships : List RelationshipRow
  notifications : List NotificationRow
  nextId : Nat
deriving Repr, DecidableEq

/-- Errors the client service layer surfaces to the caller. -/
inductive SvcError where
  | uniqueViolation
  | notPatientRole
  | notSingleRow
deriving Repr, DecidableEq

/-! ### Stored procedures (src/unnamed/part_001, the operative migration) -/

/-- Model of the plpgsql function `create_notification`. A missing target
profile raises, and a NULL `message` violates the NOT NULL column
constraint; both exceptions are caught by the function's own handler which
returns NULL with no row inserted. -/
def create_notification (db : DB) (target_user_id : Nat)
    (notification_type notification_title : String) (notification_message : Option String)
    (notification_data : List (String × JVal)) : DB × Option Nat :=
  if db.profiles.any (fun p => p.id == target_user_id) then
    match notification_message with
    | some msg =>
      ({ db with
          notifications := db.notifications ++
            [{ id := db.nextId, user_id := target_user_id, ntype := notification_type,
               title := notification_title, message := msg, ndata := notification_data,
               read := false }],
          nextId := db.nextId + 1 }, some db.nextId)
    | none => (db, none)
  else (db, none)

/-- INSERT INTO patient_doctor_relationships ... ON CONFLICT (patient_id,
doctor_id) DO NOTHING, against the table's UNIQUE(patient_id, doctor_id)
constraint. -/
def insertRelationshipOnConflict (db : DB) (patient_id doctor_id : Nat) : DB :=
  if db.relationships.any (fun rel => rel.patient_id == patient_id && rel.doctor_id == doctor_id) then
    db
  else
    { db with
        relationships := db.relationships ++
          [{ id := db.nextId, patient_id := patient_id, doctor_id := doctor_id }],
        nextId := db.nextId + 1 }

/-- Model of the plpgsql function `approve_doctor_request`: load the
request (raising when absent), set its status to approved, insert the
relationship with conflict-do-nothing, then notify the patient. -/
def approve_doctor_request (db : DB) (request_id : Nat) (now : Nat) : Except String DB :=
  match db.requests.find? (fun r => r.id == request_id) with
  | none => .error "Request not found"
  | some request_record =>
    let doctor_profile := db.profiles.find? (fun p => p.id == request_record.doctor_id)
    let db1 := { db with requests := db.requests.map fun r =>
      if r.id == request_id then { r with status := "approved", responded_at := some now } else r }
    let db2 := insertRelationshipOnConflict db1 request_record.patient_id request_record.doctor_id
    let msg := doctor_profile.map fun dp =>
      "Dr. " ++ dp.full_name ++ " has accepted your request to be your doctor."
    let db3 := (create_notification db2 request_record.patient_id "doctor_request"
      "Doctor Request Approved" msg
      [("request_id", .num request_id), ("doctor_id", .num request_record.doctor_id),
       ("doctor_name", joptStr (doctor_profile.map Profile.full_name))]).1
    .ok db3

/-- Model of the plpgsql function `reject_doctor_request`: load the request
(raising when absent), set its status to rejected, then notify the patient
with the optional reason in both message text and payload. No relationship
is touched. -/
def reject_doctor_request (db : DB) (request_id : Nat) (rejection_reason : Option String)
    (now : Nat) : Except String DB :=
  match db.requests.find? (fun r => r.id == request_id) with
  | none => .error "Request not found"
  | some request_record =>
    let doctor_profile := db.profiles.find? (fun p => p.id == request_record.doctor_id)
    let db1 := { db with requests := db.requests.map fun r =>
      if r.id == request_id then { r with status := "rejected", responded_at := some now } else r }
    let msg := doctor_profile.map fun dp =>
      "Dr. " ++ dp.full_name ++ " has declined your request." ++
        (match rejection_reason with
         | some reason => " Reason: " ++ reason
         | none => "")
    let db2 := (create_notification db1 request_record.patient_id "doctor_request"
      "Doctor Request Declined" msg
      [("request_id", .num request_id), ("doctor_id", .num request_record.doctor_id),
       ("doctor_name", joptStr (doctor_profile.map Profile.full_name)),
       ("reason", joptStr rejection_reason)]).1
    .ok db2

/-- Model of the AFTER INSERT trigger `handle_doctor_request_notification`
on `patient_doctor_requests`: best-effort doctor notification, all errors
swallowed so the main insert never fails. -/
def handle_doctor_request_notification (db : DB) (newRow : RequestRow) : DB :=
  let patient_profile := db.profiles.find? (fun p => p.id == newRow.patient_id)
  let doctor_profile := db.profiles.find? (fun p => p.id == newRow.doctor_id)
  match patient_profile, doctor_profile with
  | some pp, some _ =>
    (create_notification db newRow.doctor_id "doctor_request" "New Patient Request"
      (some (pp.full_name ++ " has requested you as their doctor."))
      [("request_id", .num newRow.id), ("patient_id", .num newRow.patient_id),
       ("patient_name", .str pp.full_name)]).1
  | _, _ => db

/-- INSERT INTO patient_doctor_requests under the table's
UNIQUE(patient_id, doctor_id) constraint, firing the AFTER INSERT trigger
on success. A duplicate pair makes the insert fail with a
unique-constraint violation and leaves the state unchanged. -/
def insertPatientDoctorRequest (db : DB) (patient_id doctor_id : Nat) (message : Option String)
    (now : Nat) : Except SvcError (DB × RequestRow) :=
  if db.requests.any (fun r => r.patient_id == patient_id && r.doctor_id == doctor_id) then
    .error .uniqueViolation
  else
    let row : RequestRow :=
      { id := db.nextId, patient_id := patient_id, doctor_id := doctor_id,
        message := message, status := "pending", requested_at := now, responded_at := none }
    let db1 := { db with requests := db.requests ++ [row], nextId := db.nextId + 1 }
    .ok (handle_doctor_request_notification db1 row, row)

/-! ### Client services (src/unnamed/part_013, src/src/services/supabaseService.ts) -/

/-- Model of `patientService.requestDoctor`: role gate, insert (errors
propagated to the caller), then a redundant client-side notification whose
errors are ignored. -/
def requestDoctor (db : DB) (profile : Profile) (doctorId : Nat) (message : Option String)
    (now : Nat) : Except SvcError (DB × RequestRow) :=
  if profile.role != "patient" then .error .notPatientRole
  else
    match insertPatientDoctorRequest db profile.id doctorId message now with
    | .error e => .error e
    | .ok (db1, row) =>
      let db2 := (create_notification db1 doctorId "doctor_request" "New Patient Request"
        (some (profile.full_name ++ " has requested you as their doctor."))
        [("request_id", .num row.id), ("patient_id", .num profile.id),
         ("patient_name", .str profile.full_name)]).1
      .ok (db2, row)

/-- Model of `notificationService.markAllAsRead` for the caller's profile:
UPDATE notifications SET read = true WHERE user_id = profileId AND
read = false. -/
def markAllAsRead (notifications : List NotificationRow) (profileId : Nat) :
    List NotificationRow :=
  notifications.map fun n =>
    if n.user_id == profileId && n.read == false then { n with read := true } else n

/-- Number of unread notifications a profile owns. -/
def unreadCount (notifications : List NotificationRow) (profileId : Nat) : Nat :=
  (notifications.filter fun n => n.user_id == profileId && n.read == false).length

/-- Lower-casing as the JS `toLowerCase` used by the doctor search. -/
def jsToLower (s : String) : String := String.mk (s.data.map Char.toLower)

/-- Client-side text filter of `profileService.searchDoctors`. -/
def doctorMatchesQuery (searchText : String) (d : Doctor) : Bool :=
  let fullName := jsToLower (match d.profile with | some p => p.full_name | none => "")
  let specialties := jsToLower (String.intercalate " " d.specialties)
  let clinicName := jsToLower (match d.clinic_name with | some c => c | none => "")
  strIncludes fullName searchText || strIncludes specialties searchText
    || strIncludes clinicName searchText

/-- Model of `profileService.searchDoctors`: verified-only query ordered by
experience descending with a row limit, then the client-side text filter
when a query is present. -/
def searchDoctors (doctors : List Doctor) (query : String) : List Doctor :=
  let base := List.insertionSort (fun a b : Doctor => b.years_experience ≤ a.years_experience)
    (doctors.filter fun d => d.verified)
  if jsTrimEmpty query then base.take 50
  else (base.take 20).filter (doctorMatchesQuery (jsToLower query))

/-- Model of `doctorService.getAllDoctors`: SELECT of doctors with
verified = true. -/
def getAllDoctors (doctors : List Doctor) : List Doctor :=
  doctors.filter fun d => d.verified

/-- PostgREST `.single()` row selection by id: exactly one matching row or
an error. -/
def findSingleSession (sessions : List ChatSession) (sessionId : Nat) : Option ChatSession :=
  match sessions.filter (fun s => s.id == sessionId) with
  | [s] => some s
  | _ => none

/-- Model of `chatHistoryService.saveMessage`: read-modify-write append of
one message, refreshing the activity timestamps. -/
def saveMessage (sessions : List ChatSession) (sessionId : Nat) (message : ChatMessage)
    (now : Nat) : Except SvcError (List ChatSession) :=
  match findSingleSession sessions sessionId with
  | none => .error .notSingleRow
  | some session =>
    let updatedMessages := session.messages ++ [message]
    .ok (sessions.map fun s =>
      if s.id == sessionId then
        { s with messages := updatedMessages, last_message_at := now, updated_at := now }
      else s)

/-- Model of `chatHistoryService.getSession`: single-row lookup by id. -/
def getSession (sessions : List ChatSession) (sessionId : Nat) : Option ChatSession :=
  findSingleSession sessions sessionId

/-- Saving a sequence of messages one by one with `saveMessage`. -/
def saveMessages (sessions : List ChatSession) (sessionId : Nat) (msgs : List ChatMessage)
    (now : Nat) : Except SvcError (List ChatSession) :=
  match msgs with
  | [] => .ok sessions
  | m :: rest =>
    match saveMessage sessions sessionId m now with
    | .error e => .error e
    | .ok sessions1 => saveMessages sessions1 sessionId rest now

/-- Count of relationship rows for one (patient, doctor) pair. -/
def relPairCount (l : List RelationshipRow) (patient_id doctor_id : Nat) : Nat :=
  (l.filter fun rel => rel.patient_id == patient_id && rel.doctor_id == doctor_id).length

/-- Uniqueness invariant of `patient_doctor_requests`: no two rows share a
(patient, doctor) pair; this is what UNIQUE(patient_id, doctor_id)
enforces. -/
def reqNoDupPairs : List RequestRow → Bool
  | [] => true
  | r :: rs =>
    !(rs.any fun x => x.patient_id == r.patient_id && x.doctor_id == r.doctor_id)
      && reqNoDupPairs rs

/-! ### Example data used by the concrete witnesses -/

/-- Example patient profile. -/
def exPatientProfile : Profile :=
  { id := 1, user_id := 11, email := "pat@example.com", full_name := "Pat Patient",
    role := "patient" }

/-- Example doctor profile. -/
def exDoctorProfile : Profile :=
  { id := 2, user_id := 12, email := "doc@example.com", full_name := "Dana Doctor",
    role := "doctor" }

/-- Example pending request from profile 1 to profile 2. -/
def exRequest : RequestRow :=
  { id := 3, patient_id := 1, doctor_id := 2, message := some "please see me",
    status := "pending", requested_at := 50, responded_at := none }

/-- Example workflow database: one patient, one doctor, one pending
request, no relationships. -/
def exDB : DB :=
  { profiles := [exPatientProfile, exDoctorProfile], requests := [exRequest],
    relationships := [], notifications := [], nextId := 10 }

/-- Result of the first example approval. -/
def exDB1 : DB := (approve_doctor_request exDB 3 100).toOption.getD exDB

/-- Result of the retried example approval. -/
def exDB2 : DB := (approve_doctor_request exDB1 3 101).toOption.getD exDB

/-- Example notification table: an unread and a read row for profile 1 and
an unread row for profile 2. -/
def exampleNotifications : List NotificationRow :=
  [{ id := 1, user_id := 1, ntype := "system", title := "a", message := "m1", ndata := [],
     read := false },
   { id := 2, user_id := 1, ntype := "system", title := "b", message := "m2", ndata := [],
     read := true },
   { id := 3, user_id := 2, ntype := "system", title := "c", message := "m3", ndata := [],
     read := false }]

/-- Profile joined into the example verified doctor row. -/
def exampleDoctorProfile : Profile :=
  { id := 2, user_id := 3, email := "doc@example.com", full_name := "Grace Doctor",
    role := "doctor" }

/-- Example verified doctor row. -/
def exampleDoctor : Doctor :=
  { id := 1, profile_id := 2, license_number := "MD-1001", specialties := ["cardiology"],
    years_experience := 5, clinic_name := none, verified := true,
    profile := some exampleDoctorProfile }

/-- Example unverified doctor row. -/
def exampleUnverifiedDoctor : Doctor :=
  { id := 4, profile_id := 5, license_number := "PENDING_5", specialties := [],
    years_experience := 0, clinic_name := none, verified := false, profile := none }

/-- Example chat session with an empty message log. -/
def exampleSession : ChatSession :=
  { id := 7, patient_id := 1, session_name := "Chat 6/21/2025", messages := [],
    last_message_at := 0, created_at := 0, updated_at := 0 }

/-- Example user chat message. -/
def exampleChatMessageA : ChatMessage :=
  { id := "m1", mtype := "user", content := "I have a headache", timestamp := "t1",
    audioUrl := none, imageUrl := none, isVoiceMessage := none }

/-- Example AI chat message. -/
def exampleChatMessageB : ChatMessage :=
  { id := "m2", mtype := "ai", content := "How long has it lasted?", timestamp := "t2",
    audioUrl := none, imageUrl := none, isVoiceMessage := some false }

/-! ## Helper lemmas -/

theorem charsLead_append_self (l t : List Char) : charsLead l (l ++ t) = true := by
  induction l with
  | nil => rfl
  | cons c cs ih => simp [charsLead, ih]

theorem charsLead_head_false {c d : Char} (hcd : c ≠ d) {cs ds : List Char} (l : List Char)
    (h : charsLead (c :: cs) l = true) : charsLead (d :: ds) l = false := by
  cases l with
  | nil => rfl
  | cons e es =>
    simp only [charsLead, Bool.and_eq_true, beq_iff_eq] at h
    simp only [charsLead, Bool.and_eq_false_iff]
    left
    exact beq_eq_false_iff_ne.mpr (fun hde => hcd (h.1 ▸ hde ▸ rfl))

theorem strStartsWith_disjoint (s p q : String) {c d : Char} {cs ds : List Char}
    (hp : p.data = c :: cs) (hq : q.data = d :: ds) (hcd : c ≠ d)
    (h : strStartsWith s p = true) : strStartsWith s q = false := by
  unfold strStartsWith at *
  rw [hp] at h
  rw [hq]
  exact charsLead_head_false hcd s.data h

theorem classifyImageError_mem (m : String) : classifyImageError m ∈ imageFallbackMessages := by
  unfold classifyImageError imageFallbackMessages
  split
  · simp
  · split
    · simp
    · split
      · simp
      · split <;> simp

/-! ## Claims about the AI response orchestration -/

/-- Claim C6: for every vendor-side failure (network, authentication, quota,
content safety — any thrown error), `generateResponse` returns the fixed
fallback apology string and `analyzeImage` returns one of its fixed
hard-coded fallback strings; neither propagates the error (both are total
functions into `String`, the catch converts every vendor error into the
fallback). -/
theorem gemini_vendor_failure_fallback (userMessage : String) (history : List GeminiMessage)
    (hasImage isVoiceMessage : Bool) (errMsg : String) (imageBase64 imageQuestion : String) :
    generateResponse userMessage history hasImage isVoiceMessage (fun _ => .err errMsg)
        = geminiFallbackMessage ∧
    (analyzeImage imageBase64 imageQuestion (.err errMsg)).result ∈ imageFallbackMessages := by
  constructor
  · rfl
  · cases h : jsTrimEmpty imageBase64 <;> simp [analyzeImage, h, classifyImageError_mem]

/-- Claim C7 counterexample: at the empty base64 payload — whose leading
characters match none of the recognized signatures — `analyzeImage` does
not declare `image/jpeg` and proceed to the vendor; it makes no vendor
call at all and returns the invalid-image fallback string. -/
theorem analyzeImage_empty_payload_counterexample :
    (analyzeImage "" "What is this?" (VendorOutcome.ok "A reply")).vendorCall = none ∧
    (analyzeImage "" "What is this?" (VendorOutcome.ok "A reply")).result
      = invalidImageFormatMessage := by
  decide

/-- Claim C7 (amended): for every base64 payload that is not empty and not
whitespace-only, `analyzeImage` proceeds to the vendor declaring the MIME
type chosen by the signature heuristic: `image/jpeg`, `image/png`,
`image/gif` or `image/webp` for the four recognized signatures, and the
default `image/jpeg` when the payload starts with none of them. -/
theorem analyzeImage_mime_detection (imageBase64 userMessage : String) (vendor : VendorOutcome)
    (h : jsTrimEmpty imageBase64 = false) :
    (analyzeImage imageBase64 userMessage vendor).vendorCall
        = some (imageAnalysisPrompt userMessage, detectMimeType imageBase64) ∧
    (strStartsWith imageBase64 "/9j/" = true → detectMimeType imageBase64 = "image/jpeg") ∧
    (strStartsWith imageBase64 "iVBORw0KGgo" = true → detectMimeType imageBase64 = "image/png") ∧
    (strStartsWith imageBase64 "R0lGOD" = true → detectMimeType imageBase64 = "image/gif") ∧
    (strStartsWith imageBase64 "UklGR" = true → detectMimeType imageBase64 = "image/webp") ∧
    (strStartsWith imageBase64 "/9j/" = false → strStartsWith imageBase64 "iVBORw0KGgo" = false →
      strStartsWith imageBase64 "R0lGOD" = false → strStartsWith imageBase64 "UklGR" = false →
      detectMimeType imageBase64 = "image/jpeg") := by
  refine ⟨?_, ?_, ?_, ?_, ?_, ?_⟩
  · cases vendor <;> simp [analyzeImage, h]
  · intro h1
    simp [detectMimeType, h1]
  · intro h1
    have hj := strStartsWith_disjoint imageBase64 "iVBORw0KGgo" "/9j/" rfl rfl (by decide) h1
    simp [detectMimeType, hj, h1]
  · intro h1
    have hj := strStartsWith_disjoint imageBase64 "R0lGOD" "/9j/" rfl rfl (by decide) h1
    have hp := strStartsWith_disjoint imageBase64 "R0lGOD" "iVBORw0KGgo" rfl rfl (by decide) h1
    simp [detectMimeType, hj, hp, h1]
  · intro h1
    have hj := strStartsWith_disjoint imageBase64 "UklGR" "/9j/" rfl rfl (by decide) h1
    have hp := strStartsWith_disjoint imageBase64 "UklGR" "iVBORw0KGgo" rfl rfl (by decide) h1
    have hg := strStartsWith_disjoint imageBase64 "UklGR" "R0lGOD" rfl rfl (by decide) h1
    simp [detectMimeType, hj, hp, hg, h1]
  · intro h1 h2 h3 h4
    simp [detectMimeType, h1, h2, h3, h4]

/-- Witness for the amended C7 at a concrete unrecognized payload (the
base64 of `ABC`): the heuristic defaults to `image/jpeg`. -/
theorem analyzeImage_mime_detection_witness :
    jsTrimEmpty "QUJD" = false ∧ detectMimeType "QUJD" = "image/jpeg" :=
  ⟨by decide, (analyzeImage_mime_detection "QUJD" "q" (VendorOutcome.ok "reply")
    (by decide)).2.2.2.2.2 (by decide) (by decide) (by decide) (by decide)⟩

/-- Claim C9: for every empty or whitespace-only base64 payload, `analyzeImage`
returns the invalid-image fallback message, makes no vendor call, and (its
result type being a plain structure) never throws to the caller. -/
theorem analyzeImage_blank_input (imageBase64 userMessage : String) (vendor : VendorOutcome)
    (h : jsTrimEmpty imageBase64 = true) :
    analyzeImage imageBase64 userMessage vendor
      = { result := invalidImageFormatMessage, vendorCall := none } := by
  have hc : classifyImageError "Invalid image data provided" = invalidImageFormatMessage := by
    decide
  simp [analyzeImage, h, hc]

/-- Witness for C9 at a whitespace payload. -/
theorem analyzeImage_blank_input_witness :
    jsTrimEmpty "   " = true ∧
    analyzeImage "   " "Look at this" (VendorOutcome.ok "reply")
      = { result := invalidImageFormatMessage, vendorCall := none } :=
  ⟨by decide, analyzeImage_blank_input "   " "Look at this" (VendorOutcome.ok "reply") (by decide)⟩

/-! ## Claims about the video consultation orchestration -/

/-- Claim C8: when the configured vendor allocation fails, `createConversation`
returns a conversation id with the fallback marker, and every
subsequent `endConversation`, `sendMessage`, `updateConversationContext` or
`getConversationStatus` call on an id starting with `mock_` or `fallback_`
short-circuits: it attempts no network request (and the status probe
reports `active`). -/
theorem tavus_fallback_and_noops (apiKey : Option String) (origin : String) (now : Nat)
    (errMsg : String) (conversationId message context : String) (net : Except String Unit)
    (netS : Except String String) :
    (tavusKeyMissing apiKey = false →
      strStartsWith (createConversation apiKey origin now (.error errMsg)).conversation_id
        "fallback_" = true) ∧
    (strStartsWith conversationId "mock_" = true ∨
        strStartsWith conversationId "fallback_" = true →
      (endConversation apiKey conversationId net).networkAttempted = false ∧
      (sendMessage apiKey conversationId message net).networkAttempted = false ∧
      (updateConversationContext apiKey conversationId context net).networkAttempted = false ∧
      (getConversationStatus apiKey conversationId netS).1.networkAttempted = false ∧
      (getConversationStatus apiKey conversationId netS).2 = "active") := by
  constructor
  · intro hk
    simp only [createConversation, hk, Bool.false_eq_true, if_false]
    show strStartsWith ("fallback_" ++ toString now) "fallback_" = true
    unfold strStartsWith
    rw [String.data_append]
    exact charsLead_append_self _ _
  · intro hm
    have hsc : tavusShortCircuit apiKey conversationId = true := by
      unfold tavusShortCircuit
      rcases hm with hm | hm <;> simp [hm]
    simp [endConversation, sendMessage, updateConversationContext, getConversationStatus, hsc]

/-- Witness for C8: a configured key, a failing vendor call at time 42, and
the resulting fallback id. -/
theorem tavus_fallback_and_noops_witness :
    tavusKeyMissing (some "tavus-key") = false ∧
    strStartsWith (createConversation (some "tavus-key") "https://app.example" 42
        (Except.error "boom")).conversation_id "fallback_" = true ∧
    (endConversation (some "tavus-key") "fallback_42" (Except.ok ())).networkAttempted = false ∧
    (getConversationStatus (some "tavus-key") "fallback_42" (Except.ok "live")).2 = "active" :=
  ⟨by decide,
   (tavus_fallback_and_noops (some "tavus-key") "https://app.example" 42 "boom" "fallback_42"
      "msg" "ctx" (Except.ok ()) (Except.ok "live")).1 (by decide),
   ((tavus_fallback_and_noops (some "tavus-key") "https://app.example" 42 "boom" "fallback_42"
      "msg" "ctx" (Except.ok ()) (Except.ok "live")).2 (by decide)).1,
   ((tavus_fallback_and_noops (some "tavus-key") "https://app.example" 42 "boom" "fallback_42"
      "msg" "ctx" (Except.ok ()) (Except.ok "live")).2 (by decide)).2.2.2.2⟩

/-! ## Claims about notification read-state -/

/-- Claim C5: `markAllAsRead` leaves its user with zero unread notifications,
preserves the table's length, and leaves every row untouched that was
already read or belongs to a different user. -/
theorem markAllAsRead_spec (notifications : List NotificationRow) (profileId : Nat) :
    unreadCount (markAllAsRead notifications profileId) profileId = 0 ∧
    (markAllAsRead notifications profileId).length = notifications.length ∧
    (∀ (i : Nat) (hi : i < notifications.length)
        (hi2 : i < (markAllAsRead notifications profileId).length),
      (notifications[i].read = true ∨ notifications[i].user_id ≠ profileId) →
      (markAllAsRead notifications profileId)[i] = notifications[i]) := by
  refine ⟨?_, by simp [markAllAsRead], ?_⟩
  · induction notifications with
    | nil => rfl
    | cons n ns ih =>
      by_cases h1 : n.user_id = profileId <;> by_cases h2 : n.read <;>
        simp [markAllAsRead, unreadCount, List.filter_cons, h1, h2] at ih ⊢ <;>
        simpa [markAllAsRead, unreadCount] using ih
  · intro i hi hi2 hcond
    rcases hcond with hc | hc <;>
      simp [markAllAsRead, List.getElem_map, hc]

/-- Witness for C5: profile 1 ends with zero unread rows and profile 2's
unread row (index 2) is untouched. -/
theorem markAllAsRead_spec_witness :
    unreadCount (markAllAsRead exampleNotifications 1) 1 = 0 ∧
    (markAllAsRead exampleNotifications 1).get ⟨2, by decide⟩
      = exampleNotifications.get ⟨2, by decide⟩ :=
  ⟨(markAllAsRead_spec exampleNotifications 1).1,
   (markAllAsRead_spec exampleNotifications 1).2.2 2 (by decide) (by decide)
     (Or.inr (by decide))⟩

/-! ## Claims about the doctor directory -/

/-- Claim C10: every doctor returned by `searchDoctors` (any query, including the
empty one) or by `getAllDoctors` is verified; unverified doctors never
appear in the directory results. -/
theorem doctor_directory_verified_only (doctors : List Doctor) (query : String) (d : Doctor) :
    (d ∈ searchDoctors doctors query → d.verified = true) ∧
    (d ∈ getAllDoctors doctors → d.verified = true) := by
  constructor
  · intro hd
    unfold searchDoctors at hd
    by_cases hq : jsTrimEmpty query <;> simp only [hq, if_true, if_false] at hd
    · have h2 := List.take_subset 50
        (List.insertionSort (fun a b : Doctor => b.years_experience ≤ a.years_experience)
          (doctors.filter fun d => d.verified)) hd
      have h3 := (List.perm_insertionSort
        (fun a b : Doctor => b.years_experience ≤ a.years_experience)
        (doctors.filter fun d => d.verified)).mem_iff.mp h2
      exact (List.mem_filter.mp h3).2
    · have h1 := (List.mem_filter.mp hd).1
      have h2 := List.take_subset 20
        (List.insertionSort (fun a b : Doctor => b.years_experience ≤ a.years_experience)
          (doctors.filter fun d => d.verified)) h1
      have h3 := (List.perm_insertionSort
        (fun a b : Doctor => b.years_experience ≤ a.years_experience)
        (doctors.filter fun d => d.verified)).mem_iff.mp h2
      exact (List.mem_filter.mp h3).2
  · intro hd
    exact (List.mem_filter.mp hd).2

/-- Witness for C10 at a two-doctor table with the empty query. -/
theorem doctor_directory_verified_only_witness :
    exampleDoctor.verified = true ∧ exampleDoctor.verified = true :=
  ⟨(doctor_directory_verified_only [exampleDoctor, exampleUnverifiedDoctor] "" exampleDoctor).1
     (by decide),
   (doctor_directory_verified_only [exampleDoctor, exampleUnverifiedDoctor] "" exampleDoctor).2
     (by decide)⟩

/-! ## Claims about chat session persistence -/

theorem filter_map_sessions (sid : Nat) (f : ChatSession → ChatSession)
    (hf : ∀ t, (f t).id = t.id) :
    ∀ l : List ChatSession,
      (l.map f).filter (fun t => t.id == sid) = (l.filter (fun t => t.id == sid)).map f := by
  intro l
  induction l with
  | nil => rfl
  | cons x xs ih =>
    cases hb : (x.id == sid) <;>
      simp [List.filter_cons, hf, hb, ih]

theorem saveMessage_ok (sessions : List ChatSession) (sid : Nat) (s : ChatSession)
    (m : ChatMessage) (now : Nat)
    (h : sessions.filter (fun t => t.id == sid) = [s]) :
    saveMessage sessions sid m now
      = .ok (sessions.map fun t =>
          if t.id == sid then
            { t with messages := s.messages ++ [m], last_message_at := now, updated_at := now }
          else t) ∧
    (sessions.map fun t =>
        if t.id == sid then
          { t with messages := s.messages ++ [m], last_message_at := now, updated_at := now }
        else t).filter (fun t => t.id == sid)
      = [{ s with messages := s.messages ++ [m], last_message_at := now, updated_at := now }] := by
  have hfind : findSingleSession sessions sid = some s := by
    unfold findSingleSession
    rw [h]
  have hs : (s.id == sid) = true := by
    have hmem : s ∈ sessions.filter (fun t => t.id == sid) := by
      rw [h]
      exact List.mem_singleton.mpr rfl
    exact (List.mem_filter.mp hmem).2
  constructor
  · unfold saveMessage
    rw [hfind]
  · have hf : ∀ t : ChatSession,
        ((fun t : ChatSession =>
          if t.id == sid then
            { t with messages := s.messages ++ [m], last_message_at := now, updated_at := now }
          else t) t).id = t.id := by
      intro t
      cases ht : (t.id == sid) <;> simp [ht]
    rw [filter_map_sessions sid _ hf sessions, h]
    simp only [List.map_cons, List.map_nil]
    rw [if_pos hs]

/-- Claim C4: round-trip — for every session present exactly once in the store
and every sequence of messages, saving them one by one with `saveMessage`
succeeds, and reloading the session with `getSession` returns its previous
log extended by exactly those messages, in order and with identical
content. -/
theorem chat_save_reload_roundtrip (sessions : List ChatSession) (sid : Nat) (s : ChatSession)
    (msgs : List ChatMessage) (now : Nat)
    (h : sessions.filter (fun t => t.id == sid) = [s]) :
    ∃ sessions2, saveMessages sessions sid msgs now = .ok sessions2 ∧
      (getSession sessions2 sid).map ChatSession.messages = some (s.messages ++ msgs) := by
  induction msgs generalizing sessions s with
  | nil =>
    refine ⟨sessions, rfl, ?_⟩
    unfold getSession findSingleSession
    rw [h]
    simp
  | cons m rest ih =>
    obtain ⟨h1, h2⟩ := saveMessage_ok sessions sid s m now h
    obtain ⟨sessions2, hs2, hget⟩ := ih _ _ h2
    refine ⟨sessions2, ?_, ?_⟩
    · simp only [saveMessages, h1]
      exact hs2
    · rw [hget]
      simp

/-- Witness for C4: two messages saved to the example empty session are
reloaded in order. -/
theorem chat_save_reload_roundtrip_witness :
    ([exampleSession].filter (fun t => t.id == 7) = [exampleSession]) ∧
    ∃ sessions2,
      saveMessages [exampleSession] 7 [exampleChatMessageA, exampleChatMessageB] 5
        = .ok sessions2 ∧
      (getSession sessions2 7).map ChatSession.messages
        = some (exampleSession.messages ++ [exampleChatMessageA, exampleChatMessageB]) :=
  ⟨by decide,
   chat_save_reload_roundtrip [exampleSession] 7 exampleSession
     [exampleChatMessageA, exampleChatMessageB] 5 (by decide)⟩

/-! ## Claims about the request/relationship workflow -/

theorem natBeq_comm (a b : Nat) : (a == b) = (b == a) := by
  by_cases h : a = b
  · subst h
    rfl
  · rw [beq_eq_false_iff_ne.mpr h, beq_eq_false_iff_ne.mpr (Ne.symm h)]

theorem create_notification_frame (db : DB) (t : Nat) (ty ti : String) (m : Option String)
    (nd : List (String × JVal)) :
    (create_notification db t ty ti m nd).1.relationships = db.relationships ∧
    (create_notification db t ty ti m nd).1.requests = db.requests := by
  unfold create_notification
  split
  · cases m <;> simp
  · simp

theorem create_notification_notifications_ok (db : DB) (t : Nat) (ty ti msg : String)
    (nd : List (String × JVal)) (ht : db.profiles.any (fun p => p.id == t) = true) :
    (create_notification db t ty ti (some msg) nd).1.notifications
      = db.notifications ++
        [{ id := db.nextId, user_id := t, ntype := ty, title := ti, message := msg,
           ndata := nd, read := false }] := by
  unfold create_notification
  rw [if_pos ht]

theorem relPairCount_append (l1 l2 : List RelationshipRow) (p d : Nat) :
    relPairCount (l1 ++ l2) p d = relPairCount l1 p d + relPairCount l2 p d := by
  simp [relPairCount, List.filter_append]

theorem relPairCount_singleton (r : RelationshipRow) (p d : Nat) :
    relPairCount [r] p d = if r.patient_id = p ∧ r.doctor_id = d then 1 else 0 := by
  by_cases h1 : r.patient_id = p <;> by_cases h2 : r.doctor_id = d <;>
    simp [relPairCount, List.filter_cons, h1, h2]

theorem relPairCount_zero_of_any_false {l : List RelationshipRow} {p d : Nat}
    (h : l.any (fun rel => rel.patient_id == p && rel.doctor_id == d) = false) :
    relPairCount l p d = 0 := by
  induction l with
  | nil => rfl
  | cons x xs ih =>
    simp only [List.any_cons, Bool.or_eq_false_iff] at h
    simp only [relPairCount, List.filter_cons, h.1, if_false]
    exact ih h.2

theorem insertRelationshipOnConflict_inv (db : DB) (P D : Nat)
    (hinv : ∀ p d, relPairCount db.relationships p d ≤ 1) :
    ∀ p d, relPairCount (insertRelationshipOnConflict db P D).relationships p d ≤ 1 := by
  intro p d
  unfold insertRelationshipOnConflict
  split
  · exact hinv p d
  · rename_i hany
    have hfalse : db.relationships.any
        (fun rel => rel.patient_id == P && rel.doctor_id == D) = false := by
      simpa using hany
    show relPairCount
      (db.relationships ++ [{ id := db.nextId, patient_id := P, doctor_id := D }]) p d ≤ 1
    rw [relPairCount_append, relPairCount_singleton]
    by_cases hpd : P = p ∧ D = d
    · have h0 : relPairCount db.relationships p d = 0 := by
        rw [← hpd.1, ← hpd.2]
        exact relPairCount_zero_of_any_false hfalse
      simp [h0, hpd.1, hpd.2]
    · rw [if_neg hpd]
      simpa using hinv p d

theorem approve_preserves_relationship_inv (db db2 : DB) (rid now : Nat)
    (hinv : ∀ p d, relPairCount db.relationships p d ≤ 1)
    (h : approve_doctor_request db rid now = .ok db2) :
    ∀ p d, relPairCount db2.relationships p d ≤ 1 := by
  unfold approve_doctor_request at h
  cases hfind : db.requests.find? (fun r => r.id == rid) with
  | none =>
    rw [hfind] at h
    exact absurd h (by simp)
  | some req =>
    rw [hfind] at h
    simp only [Except.ok.injEq] at h
    intro p d
    rw [← h]
    rw [(create_notification_frame _ _ _ _ _ _).1]
    exact insertRelationshipOnConflict_inv
      { db with requests := db.requests.map fun r =>
          if r.id == rid then { r with status := "approved", responded_at := some now } else r }
      req.patient_id req.doctor_id (fun a b => hinv a b) p d

/-- Claim C1: approving a request is idempotent with respect to relationship
creation — starting from a state where the relationship table satisfies
its per-pair uniqueness constraint, two successive `approve_doctor_request`
calls on the same request id (a retried call) leave at most one
relationship row for every (patient, doctor) pair, never two. -/
theorem approve_request_idempotent (db db1 db2 : DB) (rid now1 now2 : Nat)
    (hinv : ∀ p d, relPairCount db.relationships p d ≤ 1)
    (h1 : approve_doctor_request db rid now1 = .ok db1)
    (h2 : approve_doctor_request db1 rid now2 = .ok db2) :
    ∀ p d, relPairCount db2.relationships p d ≤ 1 :=
  approve_preserves_relationship_inv db1 db2 rid now2
    (approve_preserves_relationship_inv db db1 rid now1 hinv h1) h2

/-- Witness for C1: the example approval retried at times 100 and 101. -/
theorem approve_request_idempotent_witness :
    (∀ p d, relPairCount exDB.relationships p d ≤ 1) ∧
    approve_doctor_request exDB 3 100 = .ok exDB1 ∧
    approve_doctor_request exDB1 3 101 = .ok exDB2 ∧
    (∀ p d, relPairCount exDB2.relationships p d ≤ 1) :=
  ⟨fun p d => by simp [exDB, relPairCount],
   rfl, rfl,
   approve_request_idempotent exDB exDB1 exDB2 3 100 101
     (fun p d => by simp [exDB, relPairCount]) rfl rfl⟩

theorem handle_notification_requests (db : DB) (row : RequestRow) :
    (handle_doctor_request_notification db row).requests = db.requests := by
  unfold handle_doctor_request_notification
  cases hp : db.profiles.find? (fun p => p.id == row.patient_id) with
  | none => simp [hp]
  | some pp =>
    cases hd : db.profiles.find? (fun p => p.id == row.doctor_id) with
    | none => simp [hp, hd]
    | some dp =>
      simp only [hp, hd]
      exact (create_notification_frame _ _ _ _ _ _).2

theorem any_append_pair (xs : List RequestRow) (row : RequestRow) (f : RequestRow → Bool) :
    (xs ++ [row]).any f = (xs.any f || f row) := by
  induction xs with
  | nil => simp
  | cons y ys ih => simp [ih, Bool.or_assoc]

theorem reqNoDupPairs_append (l : List RequestRow) (row : RequestRow)
    (h : reqNoDupPairs l = true)
    (hnew : l.any (fun r => r.patient_id == row.patient_id
      && r.doctor_id == row.doctor_id) = false) :
    reqNoDupPairs (l ++ [row]) = true := by
  induction l with
  | nil => simp [reqNoDupPairs]
  | cons x xs ih =>
    simp only [reqNoDupPairs, Bool.and_eq_true, Bool.not_eq_true'] at h
    simp only [List.any_cons, Bool.or_eq_false_iff] at hnew
    simp only [List.cons_append, reqNoDupPairs, Bool.and_eq_true, Bool.not_eq_true']
    refine ⟨?_, ih h.2 hnew.2⟩
    show ((xs ++ [row]).any fun y =>
      y.patient_id == x.patient_id && y.doctor_id == x.doctor_id) = false
    rw [any_append_pair]
    simp only [h.1, Bool.false_or]
    rw [natBeq_comm row.patient_id x.patient_id, natBeq_comm row.doctor_id x.doctor_id]
    exact hnew.1

/-- Claim C2: under the UNIQUE(patient_id, doctor_id) constraint, at most one
request row exists per pair — `requestDoctor` surfaces a
constraint-violation error when a request for the pair already exists, and
a successful call preserves the per-pair uniqueness of the request
table. -/
theorem request_pair_unique (db : DB) (profile : Profile) (doctorId : Nat)
    (message : Option String) (now : Nat)
    (hrole : profile.role = "patient")
    (hinv : reqNoDupPairs db.requests = true) :
    (db.requests.any (fun r => r.patient_id == profile.id && r.doctor_id == doctorId) = true →
      requestDoctor db profile doctorId message now = .error .uniqueViolation) ∧
    (∀ db2 row, requestDoctor db profile doctorId message now = .ok (db2, row) →
      reqNoDupPairs db2.requests = true) := by
  have hr : ¬((profile.role != "patient") = true) := by simp [hrole]
  constructor
  · intro hdup
    unfold requestDoctor
    rw [if_neg hr]
    unfold insertPatientDoctorRequest
    rw [if_pos hdup]
  · intro db2 row hok
    unfold requestDoctor at hok
    rw [if_neg hr] at hok
    unfold insertPatientDoctorRequest at hok
    cases hany : db.requests.any
        (fun r => r.patient_id == profile.id && r.doctor_id == doctorId) with
    | true =>
      rw [if_pos hany] at hok
      exact absurd hok (by simp)
    | false =>
      rw [if_neg (by simp [hany])] at hok
      simp only [Except.ok.injEq, Prod.mk.injEq] at hok
      obtain ⟨hdb2, hrow⟩ := hok
      rw [← hdb2]
      rw [(create_notification_frame _ _ _ _ _ _).2, handle_notification_requests]
      exact reqNoDupPairs_append db.requests _ hinv hany

/-- Witness for C2: retrying the example pair (patient 1, doctor 2), whose
request already exists, fails with the uniqueness violation. -/
theorem request_pair_unique_witness :
    exPatientProfile.role = "patient" ∧
    reqNoDupPairs exDB.requests = true ∧
    requestDoctor exDB exPatientProfile 2 (some "again") 200
      = .error SvcError.uniqueViolation :=
  ⟨rfl, by decide,
   (request_pair_unique exDB exPatientProfile 2 (some "again") 200 rfl (by decide)).1
     (by decide)⟩

/-- Claim C3: for every request id whose row exists (with its referenced patient
and doctor profiles, as the foreign keys guarantee), `reject_doctor_request`
succeeds, leaves the relationship table unchanged (rejection never creates
a relationship row), sets the request's status to rejected, and appends
exactly one notification for the patient whose payload records the optional
reason. -/
theorem reject_request_spec (db : DB) (rid now : Nat) (reason : Option String)
    (req : RequestRow)
    (hfind : db.requests.find? (fun r => r.id == rid) = some req)
    (hpat : db.profiles.any (fun p => p.id == req.patient_id) = true)
    (hdoc : (db.profiles.find? (fun p => p.id == req.doctor_id)).isSome = true) :
    ∃ db2, reject_doctor_request db rid reason now = .ok db2 ∧
      db2.relationships = db.relationships ∧
      (∀ r ∈ db2.requests, r.id = rid → r.status = "rejected") ∧
      ∃ n, db2.notifications = db.notifications ++ [n] ∧
        n.user_id = req.patient_id ∧ ("reason", joptStr reason) ∈ n.ndata := by
  obtain ⟨dp, hdp⟩ := Option.isSome_iff_exists.mp hdoc
  unfold reject_doctor_request
  simp only [hfind, hdp, Option.map_some']
  refine ⟨_, rfl, ?_, ?_, ?_⟩
  · rw [(create_notification_frame _ _ _ _ _ _).1]
  · rw [(create_notification_frame _ _ _ _ _ _).2]
    intro r hr hid
    obtain ⟨x, hx, hfx⟩ := List.mem_map.mp hr
    by_cases hxid : (x.id == rid) = true
    · rw [← hfx]
      simp [hxid]
    · exfalso
      rw [← hfx] at hid
      simp [hxid] at hid
      exact hxid (by simp [hid])
  · rw [create_notification_notifications_ok]
    · exact ⟨_, rfl, rfl, by simp⟩
    · exact hpat

/-- Witness for C3: rejecting the example request with reason `busy`. -/
theorem reject_request_spec_witness :
    exDB.requests.find? (fun r => r.id == 3) = some exRequest ∧
    ∃ db2, reject_doctor_request exDB 3 (some "busy") 100 = .ok db2 ∧
      db2.relationships = exDB.relationships ∧
      (∀ r ∈ db2.requests, r.id = 3 → r.status = "rejected") ∧
      ∃ n, db2.notifications = exDB.notifications ++ [n] ∧
        n.user_id = exRequest.patient_id ∧ ("reason", joptStr (some "busy")) ∈ n.ndata :=
  ⟨by decide,
   reject_request_spec exDB 3 100 (some "busy") exRequest (by decide) (by decide) (by decide)⟩

end AvaBuddie
